import Mathlib

/-!
# Verification of the yt-mcp-server repository

Shallow embedding of the Go sources of `yt-mcp-server`:

* `service/token_store.go` — `InMemoryTokenStore` (modelled at the pointer
  level with an explicit heap, so that the defensive copy made by `GetToken`
  is observable);
* `service/google_oauth.go` — `GoogleOAuthService`
  (`ExchangeCodeForToken`, `GetYouTubeService`, `IsAuthenticated`,
  one tick of `TokenRefresher`), modelled at the value level: by the
  defensive-copy property of the store, `GetToken`/`SetToken` act on the
  single stored credential as an `Option Token` state cell.  Network
  operations of the `golang.org/x/oauth2` library (`Config.Exchange`,
  `TokenSource.Token`) are oracles passed as function parameters;
* `api/mcp_handler.go` — the MCP tool dispatcher (`handleToolsCall`,
  `handleToolsList` and the per-tool handlers), instrumented with the list
  of outbound YouTube-service calls each handler issues.
-/

/-- `oauth2.Token` (golang.org/x/oauth2): access token, refresh token,
expiry and token type.  The expiry is an absolute instant in seconds;
`none` models Go's zero `time.Time` (a token that never expires, per the
library's `expired()` which returns false when `Expiry.IsZero()`). -/
structure Token where
  accessToken : String
  refreshToken : String
  expiry : Option Int
  tokenType : String
  deriving DecidableEq, Repr

/-! ## Pointer-level heap, for the token store

`InMemoryTokenStore` holds a `*oauth2.Token`.  We model pointers as
addresses into a heap of `Token` cells; `nil` is `Option.none`.  Go has no
dangling pointers here, so a stored address is always a live cell. -/

/-- A heap of `Token` cells; the address of a cell is its index. -/
structure Heap where
  cells : List Token
  deriving Repr

/-- Dereference a pointer. -/
def Heap.read (h : Heap) (a : Nat) : Option Token := h.cells[a]?

/-- Allocate a fresh cell holding `t`; returns the new heap and the fresh
address. -/
def Heap.alloc (h : Heap) (t : Token) : Heap × Nat :=
  (⟨h.cells ++ [t]⟩, h.cells.length)

/-- Overwrite the cell at `a` with `t` (mutation through a pointer). -/
def Heap.write (h : Heap) (a : Nat) (t : Token) : Heap :=
  ⟨h.cells.set a t⟩

/-- `InMemoryTokenStore`: the `token *oauth2.Token` field, i.e. a possibly
nil pointer.  (The `sync.RWMutex` serialises the two methods; each method
is modelled as one atomic step.) -/
structure InMemoryTokenStore where
  token : Option Nat
  deriving DecidableEq, Repr

/-- `SetToken` stores the given pointer (possibly nil). -/
def InMemoryTokenStore.SetToken (ts : InMemoryTokenStore) (p : Option Nat) :
    InMemoryTokenStore :=
  { token := p }

/-- `GetToken`: nil if no token is held; otherwise a pointer to a freshly
allocated copy of the stored token (`tokenCopy := *ts.token; return
&tokenCopy`).  The inner `none` branch is unreachable for live pointers. -/
def InMemoryTokenStore.GetToken (ts : InMemoryTokenStore) (h : Heap) :
    Option Nat × Heap :=
  match ts.token with
  | none => (none, h)
  | some a =>
    match h.read a with
    | none => (none, h)
    | some t => ((h.alloc t).2, (h.alloc t).1)

/-! ## Value-level OAuth service

`GoogleOAuthService` only ever reads the whole stored credential
(`GetToken`, a copy) and replaces it wholesale (`SetToken`), so at this
layer the store is the value of the single credential slot:
`Option Token`. -/

/-- The refresh margin the oauth2 library's `Token.expired` uses
(`defaultExpiryDelta = 10 * time.Second`). -/
def expiryDelta : Int := 10

/-- `TokenRefresher` refreshes tokens expiring within this window
(`30 * time.Minute`), in seconds. -/
def refreshWindowSeconds : Int := 30 * 60

/-- The `TokenRefresher` ticker interval (`15 * time.Minute`), in
seconds. -/
def tokenRefresherIntervalSeconds : Int := 15 * 60

/-- `oauth2.Token.expired`: false when `Expiry.IsZero()`; otherwise true
iff `Expiry.Add(-expiryDelta)` is before now. -/
def Token.expired (t : Token) (now : Int) : Bool :=
  match t.expiry with
  | none => false
  | some e => decide (e - expiryDelta < now)

/-- `oauth2.Token.Valid`: non-nil (implicit here), non-empty access token,
and not expired. -/
def Token.valid (t : Token) (now : Int) : Bool :=
  t.accessToken != "" && !(t.expired now)

/-- `Expiry.Before(instant)` where the receiver may be Go's zero
`time.Time` (year 1): the zero time is before every instant we model. -/
def expiryBefore : Option Int → Int → Bool
  | none, _ => true
  | some e, t => decide (e < t)

/-- Oracle for `s.oauthConfig.TokenSource(ctx, token).Token()`: given the
current token, yields the (possibly refreshed) token or a network/provider
error. -/
abbrev TokenSource := Token → Except String Token

namespace GoogleOAuthService

/-- The authenticated client `GetYouTubeService` returns: a
`*youtube.Service` bound to the token source whose current credential is
the one recorded here.  (`youtube.NewService` itself is external library
setup; its failure modes are environmental and not modelled.) -/
structure YouTubeClient where
  credential : Token
  deriving DecidableEq, Repr

/-- `ExchangeCodeForToken`: exchanges `code` at the provider's token
endpoint (the `exchange` oracle models `oauthConfig.Exchange`); on success
stores the token and returns nil, on failure returns the wrapped error
without touching the store. -/
def ExchangeCodeForToken (exchange : String → Except String Token)
    (st : Option Token) (code : String) : Option Token × Except String Unit :=
  match exchange code with
  | Except.error e => (st, Except.error ("failed to exchange code for token: " ++ e))
  | Except.ok token => (some token, Except.ok ())

/-- `IsAuthenticated`: `tokenStore.GetToken() != nil`. -/
def IsAuthenticated (st : Option Token) : Bool := st.isSome

/-- `GetYouTubeService`: reads the stored token; if nil, fails
not-authenticated.  Otherwise asks the (auto-refreshing) token source for
a token; on failure propagates the wrapped error; on success writes the
new token back only when its access token differs from the one just read,
and returns the client wrapping the token source's credential. -/
def GetYouTubeService (tokenSrc : TokenSource) (st : Option Token) :
    Option Token × Except String YouTubeClient :=
  match st with
  | none => (none, Except.error "not authenticated with Google; please visit /oauth/authorize")
  | some token =>
    match tokenSrc token with
    | Except.error e => (some token, Except.error ("failed to retrieve or refresh token: " ++ e))
    | Except.ok newToken =>
      (if newToken.accessToken != token.accessToken then some newToken else some token,
       Except.ok ⟨newToken⟩)

/-- One tick of the `TokenRefresher` loop body (the `case <-ticker.C`
branch): skip when no token is held; refresh when the token is invalid or
expires within the next 30 minutes; on refresh failure clear the store to
nil, on success store the new token. -/
def TokenRefresherTick (tokenSrc : TokenSource) (now : Int) (st : Option Token) :
    Option Token :=
  match st with
  | none => st
  | some token =>
    if !(token.valid now) || expiryBefore token.expiry (now + refreshWindowSeconds) then
      match tokenSrc token with
      | Except.error _ => none
      | Except.ok newToken => some newToken
    else st

end GoogleOAuthService

/-! ## MCP tool dispatcher (`api/mcp_handler.go`)

JSON values as decoded by `encoding/json` into `interface{}`: numbers are
`float64`, modelled as rationals; objects are the decoded
`map[string]interface{}`, modelled as association lists with distinct
keys. -/

/-- A decoded JSON value. -/
inductive JSON where
  | null
  | bool (b : Bool)
  | num (q : Rat)
  | str (s : String)
  | arr (elems : List JSON)
  | obj (fields : List (String × JSON))

/-- Go `int64(f)` on a `float64`: truncation toward zero. -/
def float64ToInt64 (q : Rat) : Int := q.num.tdiv (q.den : Int)

/-- The Go type assertion `args[key].(string)` as used by the handlers
(the assertion's zero value `""` when the key is absent or not a
string). -/
def getString (args : List (String × JSON)) (key : String) : String :=
  match args.lookup key with
  | some (JSON.str s) => s
  | _ => ""

/-- The Go type assertion `args[key].(float64)` with its `ok` flag:
`none` when the key is absent or the value is not a JSON number. -/
def getFloat (args : List (String × JSON)) (key : String) : Option Rat :=
  match args.lookup key with
  | some (JSON.num q) => some q
  | _ => none

/-- The `limit, ok := args["limit"].(float64); if !ok || limit == 0
{ limit = dflt }` pattern shared by `handleSearchVideos` and
`handleGetVideoComments`. -/
def effectiveLimit (args : List (String × JSON)) (dflt : Rat) : Rat :=
  match getFloat args "limit" with
  | none => dflt
  | some l => if l = 0 then dflt else l

/-- `MCPError`: code, message and optional data (the only non-nil data the
dispatcher sends is a decode error's text). -/
structure MCPError where
  code : Int
  message : String
  data : Option String

/-- `ContentItem`: `Type`, `Text` (zero value `""` when omitted) and the
optional `JSON` payload. -/
structure ContentItem where
  type : String
  text : String
  json : Option JSON

/-- `ToolsCallResult`. -/
structure ToolsCallResult where
  content : List ContentItem
  isError : Bool

/-- `Tool`, one entry of the `tools/list` catalog. -/
structure Tool where
  name : String
  description : String
  inputSchema : JSON

/-- The `Result` field of an `MCPResponse`, for the requests we model. -/
inductive MCPResult where
  | toolsList (tools : List Tool)
  | toolsCall (r : ToolsCallResult)

/-- `MCPResponse`: exactly one of `Result` / `Error` is set by the
dispatcher's send helpers. -/
structure MCPResponse where
  result : Option MCPResult
  error : Option MCPError

/-- `sendSuccessResponse` specialised to a tool-call result. -/
def sendToolsCallResponse (r : ToolsCallResult) : MCPResponse :=
  { result := some (MCPResult.toolsCall r), error := none }

/-- `sendErrorResponse`: a protocol-level JSON-RPC error object. -/
def sendErrorResponse (code : Int) (message : String) (data : Option String) :
    MCPResponse :=
  { result := none, error := some { code := code, message := message, data := data } }

/-- `sendToolError`: a *successful* response whose result carries
`isError: true` and one text content item. -/
def sendToolError (message : String) : MCPResponse :=
  sendToolsCallResponse { content := [{ type := "text", text := message, json := none }], isError := true }

/-- `sendToolResult`: a successful response carrying one json content
item. -/
def sendToolResult (payload : JSON) : MCPResponse :=
  sendToolsCallResponse { content := [{ type := "json", text := "", json := some payload }], isError := false }

/-- The outbound `YouTubeService` calls a handler issues, recorded for the
instrumented semantics. -/
inductive APICall where
  | search (query channelID : String) (limit : Int)
  | metadata (videoID : String)
  | comments (videoID sortBy : String) (limit : Int)

/-- Oracle for the three `YouTubeService` methods the dispatcher uses
(each performs the external YouTube Data API call and may fail). -/
structure YouTubeAPI where
  searchVideos : String → String → Int → Except String JSON
  getVideoMetadata : String → Except String JSON
  getVideoComments : String → String → Int → Except String JSON

/-- `ToolsCallParams`. -/
structure ToolsCallParams where
  name : String
  arguments : List (String × JSON)

/-- `decodeParams(req.Params, &toolParams)`: re-marshal and unmarshal into
`ToolsCallParams`.  Per `encoding/json`: absent or null fields leave zero
values (`""` / nil map); a field of the wrong shape is an unmarshal error;
a non-object, non-null top level is an unmarshal error. -/
def decodeToolsCallParams : JSON → Option ToolsCallParams
  | JSON.obj fields =>
    (match fields.lookup "name" with
     | none => some ""
     | some (JSON.str s) => some s
     | some JSON.null => some ""
     | some _ => none).bind fun n =>
    (match fields.lookup "arguments" with
     | none => some []
     | some (JSON.obj a) => some a
     | some JSON.null => some []
     | some _ => none).map fun a =>
    { name := n, arguments := a }
  | JSON.null => some { name := "", arguments := [] }
  | _ => none

namespace MCPHandler

/-- `handleGetVideoMetadata`, returning the response and the list of
YouTube-service calls issued. -/
def handleGetVideoMetadata (api : YouTubeAPI) (args : List (String × JSON)) :
    MCPResponse × List APICall :=
  let videoID := getString args "video_id"
  if videoID = "" then (sendToolError "video_id is required", [])
  else
    match api.getVideoMetadata videoID with
    | Except.error e => (sendToolError ("API Error: " ++ e), [APICall.metadata videoID])
    | Except.ok metadata => (sendToolResult metadata, [APICall.metadata videoID])

/-- `handleSearchVideos`. -/
def handleSearchVideos (api : YouTubeAPI) (args : List (String × JSON)) :
    MCPResponse × List APICall :=
  let query := getString args "query"
  if query = "" then (sendToolError "query is required", [])
  else
    let channelID := getString args "channel_id"
    let limit := effectiveLimit args 10
    match api.searchVideos query channelID (float64ToInt64 limit) with
    | Except.error e =>
      (sendToolError ("API Error: " ++ e), [APICall.search query channelID (float64ToInt64 limit)])
    | Except.ok results =>
      (sendToolResult results, [APICall.search query channelID (float64ToInt64 limit)])

/-- `handleGetVideoComments`. -/
def handleGetVideoComments (api : YouTubeAPI) (args : List (String × JSON)) :
    MCPResponse × List APICall :=
  let videoID := getString args "video_id"
  if videoID = "" then (sendToolError "video_id is required", [])
  else
    let sortBy := if getString args "sort_by" = "" then "top" else getString args "sort_by"
    let limit := effectiveLimit args 20
    match api.getVideoComments videoID sortBy (float64ToInt64 limit) with
    | Except.error e =>
      (sendToolError ("API Error: " ++ e), [APICall.comments videoID sortBy (float64ToInt64 limit)])
    | Except.ok comments =>
      (sendToolResult comments, [APICall.comments videoID sortBy (float64ToInt64 limit)])

/-- `handleToolsCall`: decode the params (decode failure is the protocol
error -32602 carrying the decoder's message, whose exact text we leave
symbolic) and dispatch on the tool name; unknown names are the protocol
error -32601. -/
def handleToolsCall (api : YouTubeAPI) (params : JSON) :
    MCPResponse × List APICall :=
  match decodeToolsCallParams params with
  | none => (sendErrorResponse (-32602) "Invalid params" (some "json unmarshal error"), [])
  | some toolParams =>
    match toolParams.name with
    | "get_video_metadata" => handleGetVideoMetadata api toolParams.arguments
    | "search_videos" => handleSearchVideos api toolParams.arguments
    | "get_video_comments" => handleGetVideoComments api toolParams.arguments
    | _ => (sendErrorResponse (-32601) "Unknown tool" none, [])

/-- The `tools/list` catalog, transcribed from `handleToolsList`. -/
def toolCatalog : List Tool :=
  [ { name := "get_video_metadata"
    , description := "Gets detailed information for a specific video."
    , inputSchema := JSON.obj
        [ ("type", JSON.str "object")
        , ("properties", JSON.obj
            [ ("video_id", JSON.obj
                [ ("type", JSON.str "string")
                , ("description", JSON.str "The ID of the YouTube video.") ]) ])
        , ("required", JSON.arr [JSON.str "video_id"]) ] }
  , { name := "search_videos"
    , description := "Searches for YouTube videos."
    , inputSchema := JSON.obj
        [ ("type", JSON.str "object")
        , ("properties", JSON.obj
            [ ("query", JSON.obj
                [ ("type", JSON.str "string")
                , ("description", JSON.str "The search term.") ])
            , ("channel_id", JSON.obj
                [ ("type", JSON.str "string")
                , ("description", JSON.str "Optional: Restricts search to a specific channel.") ])
            , ("limit", JSON.obj
                [ ("type", JSON.str "integer")
                , ("description", JSON.str "Optional: Max number of results (default: 10).") ]) ])
        , ("required", JSON.arr [JSON.str "query"]) ] }
  , { name := "get_video_comments"
    , description := "Fetches top-level comment threads for a video."
    , inputSchema := JSON.obj
        [ ("type", JSON.str "object")
        , ("properties", JSON.obj
            [ ("video_id", JSON.obj
                [ ("type", JSON.str "string")
                , ("description", JSON.str "The ID of the YouTube video.") ])
            , ("sort_by", JSON.obj
                [ ("type", JSON.str "string")
                , ("description", JSON.str "Optional: Sort order (default: top).") ])
            , ("limit", JSON.obj
                [ ("type", JSON.str "integer")
                , ("description", JSON.str "Optional: Max number of results (default: 20).") ]) ])
        , ("required", JSON.arr [JSON.str "video_id"]) ] } ]

/-- `handleToolsList`. -/
def handleToolsList : MCPResponse :=
  { result := some (MCPResult.toolsList toolCatalog), error := none }

end MCPHandler

/-! ## Concrete values for witnesses and counterexamples -/

/-- A concrete credential. -/
def sampleToken : Token :=
  { accessToken := "access-1", refreshToken := "refresh-1"
  , expiry := some 1000, tokenType := "Bearer" }

/-- Another concrete credential, with a different access token. -/
def sampleToken2 : Token :=
  { accessToken := "access-2", refreshToken := "refresh-2"
  , expiry := some 5000, tokenType := "Bearer" }

/-- A YouTube API oracle with no network: every call fails. -/
def noAPI : YouTubeAPI :=
  { searchVideos := fun _ _ _ => Except.error "no network"
  , getVideoMetadata := fun _ => Except.error "no network"
  , getVideoComments := fun _ _ _ => Except.error "no network" }

/-! ## Heap lemmas -/

/-- Reading a freshly allocated cell yields the allocated value. -/
theorem Heap.read_alloc_self (h : Heap) (t : Token) :
    (h.alloc t).1.read (h.alloc t).2 = some t := by
  simp [Heap.alloc, Heap.read]

/-- Allocation does not change existing cells. -/
theorem Heap.read_alloc_of_lt (h : Heap) (t : Token) (a : Nat)
    (ha : a < h.cells.length) : (h.alloc t).1.read a = h.read a := by
  simp [Heap.alloc, Heap.read, List.getElem?_append_left ha]

/-- Writing one cell does not change a different one. -/
theorem Heap.read_write_of_ne (h : Heap) (t : Token) (a b : Nat) (hba : b ≠ a) :
    (h.write b t).read a = h.read a := by
  simp [Heap.write, Heap.read, List.getElem?_set_ne hba]

/-! ## Claim theorems -/

/-- C1: after `SetToken` with (a pointer to) credential `c` and no
intervening write, `GetToken` returns a pointer to a value equal to `c`,
and that value is a defensive copy: overwriting the returned cell with any
value `t'`, a further `GetToken` still returns a value equal to `c`. -/
theorem setToken_getToken_defensive_copy (h : Heap) (ts₀ : InMemoryTokenStore) (c : Token) :
    ∃ a₁ h₁,
      (ts₀.SetToken (some (h.alloc c).2)).GetToken (h.alloc c).1 = (some a₁, h₁) ∧
      h₁.read a₁ = some c ∧
      ∀ t', ∃ a₂ h₂,
        (ts₀.SetToken (some (h.alloc c).2)).GetToken (h₁.write a₁ t') = (some a₂, h₂) ∧
        h₂.read a₂ = some c := by
  refine ⟨h.cells.length + 1, ⟨(h.cells ++ [c]) ++ [c]⟩, ?_, ?_, ?_⟩
  · simp [InMemoryTokenStore.GetToken, InMemoryTokenStore.SetToken, Heap.alloc, Heap.read]
  · simp [Heap.read]
    rw [List.getElem_append_right (by omega)]
    simp
  · intro t'
    refine ⟨h.cells.length + 2,
      ⟨(((h.cells ++ [c]) ++ [c]).set (h.cells.length + 1) t') ++ [c]⟩, ?_, ?_⟩
    · have hne : h.cells.length + 1 ≠ h.cells.length := by omega
      have hlt : h.cells.length < (h.cells ++ [c]).length := by simp
      simp [InMemoryTokenStore.GetToken, InMemoryTokenStore.SetToken, Heap.alloc, Heap.read,
        Heap.write, List.getElem?_set_ne hne, List.getElem?_append_left hlt]
      rw [List.getElem_append_right (by omega)]
      simp
    · simp [Heap.read]
      rw [List.getElem_append_right (by omega)]
      simp

/-- C2: `ExchangeCodeForToken` writes to the token holder exactly when the
provider exchange succeeds: on success it stores the resulting credential
and returns success (and `IsAuthenticated` is true afterwards); on failure
it returns the wrapped error and leaves the store unchanged. -/
theorem exchangeCodeForToken_writes_iff_success
    (exchange : String → Except String Token) (st : Option Token) (code : String) :
    (∀ t, exchange code = Except.ok t →
      GoogleOAuthService.ExchangeCodeForToken exchange st code = (some t, Except.ok ()) ∧
      GoogleOAuthService.IsAuthenticated
        (GoogleOAuthService.ExchangeCodeForToken exchange st code).1 = true) ∧
    (∀ e, exchange code = Except.error e →
      GoogleOAuthService.ExchangeCodeForToken exchange st code =
        (st, Except.error ("failed to exchange code for token: " ++ e))) := by
  constructor
  · intro t ht
    simp [GoogleOAuthService.ExchangeCodeForToken, GoogleOAuthService.IsAuthenticated, ht]
  · intro e he
    simp [GoogleOAuthService.ExchangeCodeForToken, he]

/-- Witness for C2 at a concrete successful exchange. -/
theorem exchangeCodeForToken_writes_iff_success_witness :
    GoogleOAuthService.ExchangeCodeForToken (fun _ => Except.ok sampleToken) none "code" =
      (some sampleToken, Except.ok ()) :=
  ((exchangeCodeForToken_writes_iff_success (fun _ => Except.ok sampleToken) none "code").1
    sampleToken rfl).1

/-- C3: with no stored credential, `GetYouTubeService` fails
not-authenticated with no write and without consulting the token source
(the result is one constant for every `tokenSrc`, so no refresh is
attempted); and `IsAuthenticated` is true iff a credential is held. -/
theorem getYouTubeService_requires_auth :
    (∀ tokenSrc : TokenSource,
      GoogleOAuthService.GetYouTubeService tokenSrc none =
        (none, Except.error "not authenticated with Google; please visit /oauth/authorize")) ∧
    (∀ st : Option Token,
      GoogleOAuthService.IsAuthenticated st = true ↔ ∃ c, st = some c) := by
  constructor
  · intro tokenSrc
    rfl
  · intro st
    cases st <;> simp [GoogleOAuthService.IsAuthenticated]

/-- Witness for C3 at a concrete token source. -/
theorem getYouTubeService_requires_auth_witness :
    GoogleOAuthService.GetYouTubeService (fun t => Except.ok t) none =
      (none, Except.error "not authenticated with Google; please visit /oauth/authorize") :=
  getYouTubeService_requires_auth.1 (fun t => Except.ok t)

/-- C4: when a credential is present and the token source yields a token,
the store is overwritten exactly when the yielded access token differs
from the one just read, and in both cases the client wrapping the
(possibly refreshed) credential is returned. -/
theorem getYouTubeService_write_iff_access_changed (tokenSrc : TokenSource)
    (token newToken : Token) (hsrc : tokenSrc token = Except.ok newToken) :
    GoogleOAuthService.GetYouTubeService tokenSrc (some token) =
      ((if newToken.accessToken ≠ token.accessToken then some newToken else some token),
        Except.ok ⟨newToken⟩) ∧
    (newToken.accessToken = token.accessToken →
      (GoogleOAuthService.GetYouTubeService tokenSrc (some token)).1 = some token) ∧
    (newToken.accessToken ≠ token.accessToken →
      (GoogleOAuthService.GetYouTubeService tokenSrc (some token)).1 = some newToken) := by
  by_cases hc : newToken.accessToken = token.accessToken <;>
    simp [GoogleOAuthService.GetYouTubeService, hsrc, hc]

/-- Witness for C4 at a concrete refresh that changes the access token. -/
theorem getYouTubeService_write_iff_access_changed_witness :
    GoogleOAuthService.GetYouTubeService (fun _ => Except.ok sampleToken2) (some sampleToken) =
      ((if sampleToken2.accessToken ≠ sampleToken.accessToken
        then some sampleToken2 else some sampleToken),
        Except.ok ⟨sampleToken2⟩) :=
  (getYouTubeService_write_iff_access_changed (fun _ => Except.ok sampleToken2)
    sampleToken sampleToken2 rfl).1

/-- C5: in a refresher tick where a credential is held and is invalid or
expires within the next 30 minutes, the refresh is attempted: on failure
the store is cleared (so `IsAuthenticated` is false), on success the new
credential is stored; a tick with no credential does nothing; and the
ticker interval is 15 minutes. -/
theorem tokenRefresherTick_spec (tokenSrc : TokenSource) (now : Int) (token : Token)
    (hdue : token.valid now = false ∨
      ∃ e, token.expiry = some e ∧ e < now + refreshWindowSeconds) :
    (∀ e, tokenSrc token = Except.error e →
      GoogleOAuthService.TokenRefresherTick tokenSrc now (some token) = none ∧
      GoogleOAuthService.IsAuthenticated
        (GoogleOAuthService.TokenRefresherTick tokenSrc now (some token)) = false) ∧
    (∀ nt, tokenSrc token = Except.ok nt →
      GoogleOAuthService.TokenRefresherTick tokenSrc now (some token) = some nt) ∧
    GoogleOAuthService.TokenRefresherTick tokenSrc now none = none ∧
    tokenRefresherIntervalSeconds = 15 * 60 := by
  have hcond : (!(token.valid now) ||
      expiryBefore token.expiry (now + refreshWindowSeconds)) = true := by
    rcases hdue with hv | ⟨e, he, hlt⟩
    · simp [hv]
    · simp [expiryBefore, he, hlt]
  refine ⟨?_, ?_, rfl, rfl⟩
  · intro e he
    simp [GoogleOAuthService.TokenRefresherTick, GoogleOAuthService.IsAuthenticated, hcond, he]
  · intro nt hnt
    simp [GoogleOAuthService.TokenRefresherTick, hcond, hnt]

/-- Witness for C5: a concrete failing refresh of an expired token clears
the store. -/
theorem tokenRefresherTick_spec_witness :
    GoogleOAuthService.TokenRefresherTick (fun _ => Except.error "revoked") 2000
      (some sampleToken) = none :=
  ((tokenRefresherTick_spec (fun _ => Except.error "revoked") 2000 sampleToken
    (Or.inl (by decide))).1 "revoked" rfl).1

/-- C10: for every prior token-holder state, a successful exchange leaves
exactly the newly exchanged credential in the store. -/
theorem exchangeCodeForToken_last_writer_wins
    (exchange : String → Except String Token) (st : Option Token) (code : String)
    (t : Token) (hx : exchange code = Except.ok t) :
    (GoogleOAuthService.ExchangeCodeForToken exchange st code).1 = some t := by
  simp [GoogleOAuthService.ExchangeCodeForToken, hx]

/-- Witness for C10, replacing an older stored credential. -/
theorem exchangeCodeForToken_last_writer_wins_witness :
    (GoogleOAuthService.ExchangeCodeForToken (fun _ => Except.ok sampleToken2)
      (some sampleToken) "code").1 = some sampleToken2 :=
  exchangeCodeForToken_last_writer_wins (fun _ => Except.ok sampleToken2)
    (some sampleToken) "code" sampleToken2 rfl

/-- C6 counterexample: a `tools/call` of `get_video_metadata` with a
missing required `video_id` is answered with a *successful* response
carrying a tool-result error (`isError: true`, no `error` member), not
with a protocol-level -32602 error object. -/
theorem missingArg_not_protocol_error_counterexample :
    MCPHandler.handleToolsCall noAPI
        (JSON.obj [("name", JSON.str "get_video_metadata"), ("arguments", JSON.obj [])]) =
      (sendToolError "video_id is required", []) ∧
    (sendToolError "video_id is required").error = none ∧
    ∃ r, (sendToolError "video_id is required").result = some (MCPResult.toolsCall r) ∧
      r.isError = true := by
  exact ⟨rfl, rfl, ⟨_, rfl, rfl⟩⟩

/-- C6 amended: a `tools/call` whose params envelope fails to decode gets
the protocol error -32602; a missing or invalid required tool argument
(e.g. `get_video_metadata` without `video_id`, `search_videos` without
`query`) instead gets a tool-result error, with no external call. -/
theorem missingArg_is_tool_result_error (api : YouTubeAPI) (j : JSON)
    (args : List (String × JSON)) :
    (decodeToolsCallParams j = none →
      MCPHandler.handleToolsCall api j =
        (sendErrorResponse (-32602) "Invalid params" (some "json unmarshal error"), [])) ∧
    (getString args "video_id" = "" →
      MCPHandler.handleGetVideoMetadata api args = (sendToolError "video_id is required", [])) ∧
    (getString args "query" = "" →
      MCPHandler.handleSearchVideos api args = (sendToolError "query is required", [])) := by
  refine ⟨?_, ?_, ?_⟩ <;> intro hmiss <;>
    simp [MCPHandler.handleToolsCall, MCPHandler.handleGetVideoMetadata,
      MCPHandler.handleSearchVideos, hmiss]

/-- Witness for the amended C6 at concrete undecodable params and empty
arguments. -/
theorem missingArg_is_tool_result_error_witness :
    MCPHandler.handleToolsCall noAPI (JSON.str "x") =
      (sendErrorResponse (-32602) "Invalid params" (some "json unmarshal error"), []) ∧
    MCPHandler.handleGetVideoMetadata noAPI [] = (sendToolError "video_id is required", []) :=
  ⟨(missingArg_is_tool_result_error noAPI (JSON.str "x") []).1 rfl,
   (missingArg_is_tool_result_error noAPI (JSON.str "x") []).2.1 rfl⟩

/-- C7: the dispatcher's catalog has only the three public tools;
`reply_to_comment` and `add_video_to_playlist` — advertised by the repo's
README and implemented in the service layer — are rejected as unknown
(-32601) by `handleToolsCall` and absent from `handleToolsList`. -/
theorem toolCatalog_has_only_three_tools (api : YouTubeAPI) :
    (∃ tools, MCPHandler.handleToolsList.result = some (MCPResult.toolsList tools) ∧
      tools.map Tool.name = ["get_video_metadata", "search_videos", "get_video_comments"]) ∧
    MCPHandler.handleToolsCall api
        (JSON.obj [("name", JSON.str "reply_to_comment"),
          ("arguments", JSON.obj [("comment_id", JSON.str "c1"), ("text", JSON.str "hi")])]) =
      (sendErrorResponse (-32601) "Unknown tool" none, []) ∧
    MCPHandler.handleToolsCall api
        (JSON.obj [("name", JSON.str "add_video_to_playlist"),
          ("arguments", JSON.obj [("playlist_id", JSON.str "p1"), ("video_id", JSON.str "v1")])]) =
      (sendErrorResponse (-32601) "Unknown tool" none, []) := by
  exact ⟨⟨MCPHandler.toolCatalog, rfl, rfl⟩, rfl, rfl⟩

/-- C8: `search_videos` whose `query` argument is absent, empty or not a
string yields a tool-result error (successful response, `isError: true`,
one text item) and issues no external call. -/
theorem searchVideos_bad_query_no_external_call (api : YouTubeAPI)
    (args : List (String × JSON))
    (hq : ∀ s, args.lookup "query" = some (JSON.str s) → s = "") :
    MCPHandler.handleSearchVideos api args = (sendToolError "query is required", []) ∧
    (sendToolError "query is required").error = none ∧
    ∃ r, (sendToolError "query is required").result = some (MCPResult.toolsCall r) ∧
      r.isError = true ∧ ∃ item, r.content = [item] ∧ item.type = "text" := by
  have hq' : getString args "query" = "" := by
    unfold getString
    cases hl : args.lookup "query" with
    | none => rfl
    | some j =>
      cases j
      case str s => exact hq s hl
      all_goals rfl
  refine ⟨?_, rfl, ⟨_, rfl, rfl, _, rfl, rfl⟩⟩
  simp [MCPHandler.handleSearchVideos, hq']

/-- Witness for C8 with the `query` argument absent. -/
theorem searchVideos_bad_query_no_external_call_witness :
    MCPHandler.handleSearchVideos noAPI [] = (sendToolError "query is required", []) :=
  (searchVideos_bad_query_no_external_call noAPI []
    (fun s hs => by simp [List.lookup] at hs)).1

/-- C9: with a valid `video_id`, an omitted/empty `sort_by` becomes
`"top"` and an absent, non-numeric or zero `limit` becomes 20 in
`get_video_comments` (10 in `search_videos`): the recorded external call
carries those defaults.  A literal `limit` of 0 is indistinguishable from
an absent `limit`: `effectiveLimit` maps both to the default. -/
theorem commentsAndSearch_defaults (api : YouTubeAPI)
    (argsC argsS : List (String × JSON))
    (hvid : ¬ getString argsC "video_id" = "")
    (hsort : getString argsC "sort_by" = "")
    (hlimC : getFloat argsC "limit" = none ∨ getFloat argsC "limit" = some 0)
    (hq : ¬ getString argsS "query" = "")
    (hlimS : getFloat argsS "limit" = none ∨ getFloat argsS "limit" = some 0) :
    (MCPHandler.handleGetVideoComments api argsC).2 =
      [APICall.comments (getString argsC "video_id") "top" 20] ∧
    (MCPHandler.handleSearchVideos api argsS).2 =
      [APICall.search (getString argsS "query") (getString argsS "channel_id") 10] ∧
    (∀ (d : Rat) (rest other : List (String × JSON)), getFloat other "limit" = none →
      effectiveLimit (("limit", JSON.num 0) :: rest) d = effectiveLimit other d) := by
  have hC : effectiveLimit argsC 20 = 20 := by
    rcases hlimC with hl | hl <;> simp [effectiveLimit, hl]
  have hS : effectiveLimit argsS 10 = 10 := by
    rcases hlimS with hl | hl <;> simp [effectiveLimit, hl]
  have h20 : float64ToInt64 20 = 20 := by decide
  have h10 : float64ToInt64 10 = 10 := by decide
  refine ⟨?_, ?_, ?_⟩
  · rcases hres : api.getVideoComments (getString argsC "video_id") "top" 20 with e | r <;>
      simp [MCPHandler.handleGetVideoComments, hsort, hC, h20, hvid, hres]
  · rcases hres : api.searchVideos (getString argsS "query") (getString argsS "channel_id") 10
        with e | r <;>
      simp [MCPHandler.handleSearchVideos, hS, h10, hq, hres]
  · intro d rest other hother
    have hzero : getFloat (("limit", JSON.num 0) :: rest) "limit" = some 0 := rfl
    simp [effectiveLimit, hzero, hother]

/-- Witness for C9 at concrete arguments: `sort_by` omitted, `limit`
omitted in one call and literally 0 in the other. -/
theorem commentsAndSearch_defaults_witness :
    (MCPHandler.handleGetVideoComments noAPI [("video_id", JSON.str "v")]).2 =
      [APICall.comments "v" "top" 20] ∧
    (MCPHandler.handleSearchVideos noAPI
        [("query", JSON.str "q"), ("limit", JSON.num 0)]).2 =
      [APICall.search "q" "" 10] := by
  have h := commentsAndSearch_defaults noAPI [("video_id", JSON.str "v")]
    [("query", JSON.str "q"), ("limit", JSON.num 0)]
    (by decide) rfl (Or.inl rfl) (by decide) (Or.inr rfl)
  exact ⟨h.1, h.2.1⟩
